import Mathlib

/-!
Shallow embedding of the Clawcolator enforcement core
(`src/clawcolator.rs` of brianweb3/clawcolator1) together with the sample
policy agent from `tests/clawcolator_agent_example.rs`, and proofs of the
spec's claims about them.

Machine integers are modelled as `Nat` (unsigned) and `Int` (signed); the
`i128` minimum is written `-(2^127)` and saturating/wrapping casts are made
explicit where the Rust code performs them.
-/

set_option maxRecDepth 10000

namespace Clawcolator

/-- Modelled from the spec: the protocol-wide bounds `MAX_ORACLE_PRICE` and
`MAX_POSITION_ABS` are constants of the parent crate (not part of this
module's source); the spec refers to them only as "the protocol's maximum
oracle price" and "the protocol-wide maximum position magnitude", so they are
kept abstract here. -/
structure Consts where
  MAX_ORACLE_PRICE : Nat
  MAX_POSITION_ABS : Nat
deriving DecidableEq

/-- Modelled from the spec: the error taxonomy of §7 — `Unauthorized`,
`InvalidDecision` (named `InvalidMatchingEngine` in the code),
`Undercollateralized`, `ParameterOverflow` (named `Overflow` in the code).
These are exactly the four `RiskError` variants the module uses. -/
inductive RiskError where
  | Unauthorized
  | InvalidMatchingEngine
  | Undercollateralized
  | Overflow
deriving DecidableEq

/-- Modelled from the spec: the external engine's risk parameters; field list
as constructed by the repository's own tests (`default_params` in
`tests/clawcolator_agent_example.rs`); the core reads only
`maintenance_margin_bps`. -/
structure RiskParams where
  warmup_period_slots : Nat
  maintenance_margin_bps : Nat
  initial_margin_bps : Nat
  trading_fee_bps : Nat
  max_accounts : Nat
  new_account_fee : Nat
  risk_reduction_threshold : Nat
  maintenance_fee_per_slot : Nat
  max_crank_staleness_slots : Nat
  liquidation_fee_bps : Nat
  liquidation_fee_cap : Nat
  liquidation_buffer_bps : Nat
  min_liquidation_abs : Nat
deriving DecidableEq

/-- Modelled from the spec: the external ledger/margin engine (§6), reduced to
the fields the Clawcolator core reads in `build_context`; its mutating
`execute_trade` and `init_in_place` operations are abstract parameters of the
core's operations below. -/
structure RiskEngine where
  current_slot : Nat
  vault : Nat
  insurance_balance : Nat
  c_tot : Nat
  pnl_pos_tot : Nat
  total_open_interest : Nat
  params : RiskParams
  last_crank_slot : Nat
deriving DecidableEq

/-- `AgentContext`: read-only context provided to the agent. -/
structure AgentContext where
  current_slot : Nat
  oracle_price : Nat
  vault : Nat
  insurance_balance : Nat
  total_capital : Nat
  total_positive_pnl : Nat
  total_open_interest : Nat
  risk_params : RiskParams
  risk_reduction_mode : Bool
  last_crank_slot : Nat
deriving DecidableEq

/-- `TradeRequest`: trade request from user. -/
structure TradeRequest where
  user_idx : Nat
  size : Int
  requested_price : Option Nat
deriving DecidableEq

/-- `TradeRejectionReason`. -/
inductive TradeRejectionReason where
  | MarketConditions
  | RiskLimit
  | InsufficientLiquidity
  | AnomalyDetected
  | SystemShutdown
  | Other
deriving DecidableEq

/-- `TradeDecision`: the agent's decision about a trade. -/
inductive TradeDecision where
  | Accept (price : Nat) (size : Int)
  | Reject (reason : TradeRejectionReason)
  | RequestQuote (quote_price : Nat) (max_size : Int)
deriving DecidableEq

/-- `MarketParams`: dynamic market parameters controlled by the agent. -/
structure MarketParams where
  max_leverage_bps : Nat
  max_position_size : Nat
  spread_bps : Nat
  funding_rate_bps_per_slot : Int
  min_margin_bps : Nat
  active_capital_ratio_bps : Nat
deriving DecidableEq

/-- `MarketParams::default()`. -/
def MarketParams.default (c : Consts) : MarketParams :=
  { max_leverage_bps := 1000
    max_position_size := c.MAX_POSITION_ABS
    spread_bps := 10
    funding_rate_bps_per_slot := 0
    min_margin_bps := 500
    active_capital_ratio_bps := 10000 }

/-- `LiquidityAllocation`. -/
structure LiquidityAllocation where
  target_active_capital : Nat
  reserve_capital : Nat
  defensive_mode : Bool
deriving DecidableEq

/-- `RiskActions` (fixed 16-slot close-position list plus occupied length). -/
structure RiskActions where
  reduce_exposure : Bool
  hedge : Bool
  close_positions : Fin 16 → Nat
  close_positions_len : Nat
  increase_margin : Option Nat

/-- `RiskAssessment`. -/
structure RiskAssessment where
  risk_level_bps : Nat
  actions : RiskActions

/-- `AnomalyType`. -/
inductive AnomalyType where
  | OracleManipulation
  | HighVolatility
  | UnusualPatterns
  | LiquidityCrisis
  | Other
deriving DecidableEq

/-- `AnomalyActions`. -/
structure AnomalyActions where
  freeze_market : Bool
  reduce_limits : Option Nat
  stop_trading : Bool
  initiate_shutdown : Bool
deriving DecidableEq

/-- `AnomalyActions::default()`. -/
def AnomalyActions.default : AnomalyActions :=
  { freeze_market := false, reduce_limits := none
    stop_trading := false, initiate_shutdown := false }

/-- `AnomalyResponse`. -/
structure AnomalyResponse where
  anomaly_type : AnomalyType
  severity_bps : Nat
  actions : AnomalyActions
deriving DecidableEq

/-- The `OpenClawAgent` trait: a pluggable policy, modelled as a record of
pure decision functions, each of which may fail with a `RiskError`. -/
structure OpenClawAgent where
  decide_trade : AgentContext → TradeRequest → Except RiskError TradeDecision
  get_market_params : AgentContext → Except RiskError MarketParams
  decide_liquidity_allocation : AgentContext → Except RiskError LiquidityAllocation
  assess_risk : AgentContext → Except RiskError RiskAssessment
  detect_anomalies : AgentContext → Except RiskError AnomalyResponse
  should_shutdown : AgentContext → Except RiskError Bool

/-- `TradeExecution` record returned by a matching engine. -/
structure TradeExecution where
  price : Nat
  size : Int
deriving DecidableEq

/-- `AgentMatcher`: adapter carrying the validated (price, size) pair. -/
structure AgentMatcher where
  price : Nat
  size : Int
deriving DecidableEq

/-- `AgentMatcher`'s `MatchingEngine::execute_match`: deterministically
returns the already-validated pair. -/
def AgentMatcher.execute_match (m : AgentMatcher) (_lp_account_id : Nat)
    (_oracle_price : Nat) (_size : Int) : Except RiskError TradeExecution :=
  .ok { price := m.price, size := m.size }

/-- `saturating_abs_i128` from the source: `i128::MIN` maps to `i128::MAX`,
otherwise plain absolute value. -/
def saturating_abs_i128 (val : Int) : Int :=
  if val = -(2 ^ 127) then 2 ^ 127 - 1 else (val.natAbs : Int)

/-- `ClawcolatorEngine` state: inner risk engine, current market parameters
and the two safety flags. -/
structure ClawcolatorEngine where
  engine : RiskEngine
  market_params : MarketParams
  shutdown : Bool
  market_frozen : Bool
deriving DecidableEq

/-- Type of the external engine's mutating `execute_trade` operation
(matcher, lp index, user index, slot, oracle price, signed size), modelled
from the spec's collaborator contract (§6): it may fail and may mutate the
inner engine. -/
def InnerExec : Type :=
  RiskEngine → AgentMatcher → Nat → Nat → Nat → Nat → Int →
    Except RiskError Unit × RiskEngine

/-- Type of the external engine's `init_in_place` operation, modelled from
the spec (out-of-scope collaborator): it rebuilds the inner engine from base
parameters. -/
def InnerInit : Type :=
  RiskEngine → RiskParams → RiskEngine

/-- `ClawcolatorEngine::init_in_place`. -/
def ClawcolatorEngine.init_in_place (c : Consts) (innerInit : InnerInit)
    (s : ClawcolatorEngine) (base_params : RiskParams) : ClawcolatorEngine :=
  { engine := innerInit s.engine base_params
    market_params := MarketParams.default c
    shutdown := false
    market_frozen := false }

/-- `ClawcolatorEngine::build_context`. -/
def ClawcolatorEngine.build_context (s : ClawcolatorEngine)
    (oracle_price : Nat) : AgentContext :=
  { current_slot := s.engine.current_slot
    oracle_price := oracle_price
    vault := s.engine.vault
    insurance_balance := s.engine.insurance_balance
    total_capital := s.engine.c_tot
    total_positive_pnl := s.engine.pnl_pos_tot
    total_open_interest := s.engine.total_open_interest
    risk_params := s.engine.params
    risk_reduction_mode := false
    last_crank_slot := s.engine.last_crank_slot }

/-- `ClawcolatorEngine::validate_trade_execution`: the Trade Decision
Validator's check sequence, in source order. -/
def ClawcolatorEngine.validate_trade_execution (c : Consts)
    (s : ClawcolatorEngine) (price : Nat) (exec_size requested_size : Int) :
    Except RiskError Unit :=
  if price = 0 ∨ c.MAX_ORACLE_PRICE < price then
    .error .InvalidMatchingEngine
  else if exec_size = 0 then
    .ok ()
  else if exec_size = -(2 ^ 127) then
    .error .InvalidMatchingEngine
  else if (c.MAX_POSITION_ABS : Int) < saturating_abs_i128 exec_size then
    .error .InvalidMatchingEngine
  else if (decide ((0 : Int) < exec_size)) ≠ (decide ((0 : Int) < requested_size)) then
    .error .InvalidMatchingEngine
  else if saturating_abs_i128 requested_size < saturating_abs_i128 exec_size then
    .error .InvalidMatchingEngine
  else if (s.market_params.max_position_size : Int) < saturating_abs_i128 exec_size then
    .error .Undercollateralized
  else
    .ok ()

/-- `ClawcolatorEngine::execute_trade`: safety-flag gate, agent decision,
validation, then settlement through the external engine. Returns the
result together with the post-call engine state. -/
def ClawcolatorEngine.execute_trade (c : Consts) (innerExec : InnerExec)
    (s : ClawcolatorEngine) (agent : OpenClawAgent) (user_idx : Nat)
    (oracle_price : Nat) (size : Int) (now_slot : Nat) :
    Except RiskError Unit × ClawcolatorEngine :=
  if s.shutdown then (.error .Unauthorized, s)
  else if s.market_frozen then (.error .Unauthorized, s)
  else
    let context := s.build_context oracle_price
    let request : TradeRequest :=
      { user_idx := user_idx, size := size, requested_price := none }
    match agent.decide_trade context request with
    | .error e => (.error e, s)
    | .ok (.Accept price exec_size) =>
      match s.validate_trade_execution c price exec_size size with
      | .error e => (.error e, s)
      | .ok _ =>
        let matcher : AgentMatcher := { price := price, size := exec_size }
        let lp_idx := 0
        let r := innerExec s.engine matcher lp_idx user_idx now_slot oracle_price size
        (r.1, { s with engine := r.2 })
    | .ok (.Reject _) => (.error .Unauthorized, s)
    | .ok (.RequestQuote _ _) => (.error .Unauthorized, s)

/-- `ClawcolatorEngine::validate_market_params`: the Market Parameter
Validator, in source order. -/
def ClawcolatorEngine.validate_market_params (c : Consts)
    (s : ClawcolatorEngine) (params : MarketParams) : Except RiskError Unit :=
  if 10000 < params.max_leverage_bps then
    .error .Overflow
  else if c.MAX_POSITION_ABS < params.max_position_size then
    .error .Overflow
  else if 10000 < params.active_capital_ratio_bps then
    .error .Overflow
  else if params.min_margin_bps < s.engine.params.maintenance_margin_bps then
    .error .Undercollateralized
  else
    .ok ()

/-- `ClawcolatorEngine::update_market_params`: ask the agent for parameters
at a context built with oracle price 0, validate, and on success replace
`market_params` wholesale. -/
def ClawcolatorEngine.update_market_params (c : Consts)
    (s : ClawcolatorEngine) (agent : OpenClawAgent) :
    Except RiskError Unit × ClawcolatorEngine :=
  let context := s.build_context 0
  match agent.get_market_params context with
  | .error e => (.error e, s)
  | .ok params =>
    match s.validate_market_params c params with
    | .error e => (.error e, s)
    | .ok _ => (.ok (), { s with market_params := params })

/-- `ClawcolatorEngine::check_anomalies`: apply the agent's anomaly actions
to the safety flags and (bounds permitting) the position-size limit. -/
def ClawcolatorEngine.check_anomalies (c : Consts) (s : ClawcolatorEngine)
    (agent : OpenClawAgent) (oracle_price : Nat) :
    Except RiskError Unit × ClawcolatorEngine :=
  match agent.detect_anomalies (s.build_context oracle_price) with
  | .error e => (.error e, s)
  | .ok response =>
    let s1 := if response.actions.freeze_market
      then { s with market_frozen := true } else s
    let s2 := if response.actions.stop_trading
      then { s1 with market_frozen := true } else s1
    let s3 := if response.actions.initiate_shutdown
      then { s2 with shutdown := true } else s2
    let s4 := match response.actions.reduce_limits with
      | some new_max_size =>
        if new_max_size ≤ c.MAX_POSITION_ABS then
          { s3 with market_params :=
              { s3.market_params with max_position_size := new_max_size } }
        else s3
      | none => s3
    (.ok (), s4)

/-- `ClawcolatorEngine::check_shutdown`: set the shutdown flag when the agent
says so. -/
def ClawcolatorEngine.check_shutdown (s : ClawcolatorEngine)
    (agent : OpenClawAgent) (oracle_price : Nat) :
    Except RiskError Unit × ClawcolatorEngine :=
  match agent.should_shutdown (s.build_context oracle_price) with
  | .error e => (.error e, s)
  | .ok b => if b then (.ok (), { s with shutdown := true }) else (.ok (), s)

/-- `SimpleClawAgent` from `tests/clawcolator_agent_example.rs`. -/
structure SimpleClawAgent where
  max_position_size : Nat
  max_leverage_bps : Nat
  spread_bps : Nat
deriving DecidableEq

/-- `SimpleClawAgent::decide_trade` from the example agent. `u128`
arithmetic is `Nat`; the `as u64` truncating cast of the spread is `% 2^64`
and `saturating_add`/`saturating_sub` on `u64` are `min (2^64 - 1)` and `Nat`
subtraction. `request.size.abs() as u128` is `Int.natAbs` (identical to the
release-mode wrap-then-cast, including at `i128::MIN`). -/
def SimpleClawAgent.decide_trade (a : SimpleClawAgent) (c : Consts)
    (context : AgentContext) (request : TradeRequest) :
    Except RiskError TradeDecision :=
  if context.risk_reduction_mode then
    .ok (.Reject .RiskLimit)
  else
    let abs_size : Nat := request.size.natAbs
    if a.max_position_size < abs_size then
      .ok (.Reject .RiskLimit)
    else
      let notional := abs_size * context.oracle_price / 1000000
      if 0 < context.total_capital then
        let leverage_bps := notional * 10000 / context.total_capital % 2 ^ 64
        if a.max_leverage_bps < leverage_bps then
          .ok (.Reject .RiskLimit)
        else
          let spread_amount := context.oracle_price * a.spread_bps / 10000
          let execution_price :=
            if 0 < request.size then
              min (context.oracle_price + spread_amount % 2 ^ 64) (2 ^ 64 - 1)
            else
              context.oracle_price - spread_amount % 2 ^ 64
          if execution_price = 0 ∨ c.MAX_ORACLE_PRICE < execution_price then
            .ok (.Reject .MarketConditions)
          else
            .ok (.Accept execution_price request.size)
      else
        .ok (.Reject .InsufficientLiquidity)

/-! ## Concrete fixtures (values drawn from the repository's own tests) -/

/-- `default_params()` from `tests/clawcolator_agent_example.rs`. -/
def paramsW : RiskParams :=
  { warmup_period_slots := 100
    maintenance_margin_bps := 500
    initial_margin_bps := 1000
    trading_fee_bps := 10
    max_accounts := 1000
    new_account_fee := 0
    risk_reduction_threshold := 0
    maintenance_fee_per_slot := 0
    max_crank_staleness_slots := 2 ^ 64 - 1
    liquidation_fee_bps := 50
    liquidation_fee_cap := 100000
    liquidation_buffer_bps := 100
    min_liquidation_abs := 100000 }

/-- A concrete inner-engine state (totals as in the repository's tests). -/
def engineW : RiskEngine :=
  { current_slot := 1000
    vault := 10000000
    insurance_balance := 1000000
    c_tot := 9000000
    pnl_pos_tot := 0
    total_open_interest := 0
    params := paramsW
    last_crank_slot := 999 }

/-- Concrete protocol bounds for evaluation. -/
def constsW : Consts :=
  { MAX_ORACLE_PRICE := 1000000000, MAX_POSITION_ABS := 1000000000 }

/-- A freshly initialised engine state. -/
def stateW : ClawcolatorEngine :=
  { engine := engineW
    market_params := MarketParams.default constsW
    shutdown := false
    market_frozen := false }

/-- `stateW` with the shutdown flag set. -/
def stateShutW : ClawcolatorEngine := { stateW with shutdown := true }

/-- `stateW` with a small configured position-size limit. -/
def stateSmallMaxW : ClawcolatorEngine :=
  { stateW with market_params :=
      { MarketParams.default constsW with max_position_size := 10 } }

/-- A trivial inner-engine `execute_trade`: succeed and leave the engine
unchanged. -/
def innerExecW : InnerExec := fun e _ _ _ _ _ _ => (.ok (), e)

/-- A trivial inner-engine `init_in_place`: leave the engine unchanged. -/
def innerInitW : InnerInit := fun e _ => e

/-- A benign concrete agent: rejects trades, proposes default parameters,
reports no anomalies, never shuts down. -/
def agentW : OpenClawAgent :=
  { decide_trade := fun _ _ => .ok (.Reject .Other)
    get_market_params := fun _ => .ok (MarketParams.default constsW)
    decide_liquidity_allocation := fun _ => .ok ⟨0, 0, false⟩
    assess_risk := fun _ => .ok ⟨0, ⟨false, false, fun _ => 0, 0, none⟩⟩
    detect_anomalies := fun _ => .ok ⟨.Other, 0, AnomalyActions.default⟩
    should_shutdown := fun _ => .ok false }

/-- `agentW` but `decide_trade` fails with a non-`Unauthorized` error. -/
def agentErrW : OpenClawAgent :=
  { agentW with decide_trade := fun _ _ => .error .Overflow }

/-- Market parameters with an over-limit leverage (Scenario 5's 15000 bps). -/
def badParamsW : MarketParams :=
  { MarketParams.default constsW with max_leverage_bps := 15000 }

/-- `agentW` but proposing the over-limit `badParamsW`. -/
def agentBadParamsW : OpenClawAgent :=
  { agentW with get_market_params := fun _ => .ok badParamsW }

/-- An anomaly response asking for a position-size limit of 500. -/
def anomalyRespW : AnomalyResponse :=
  ⟨.LiquidityCrisis, 5000, ⟨false, some 500, false, false⟩⟩

/-- An anomaly response asking for a position-size limit above the protocol
maximum. -/
def anomalyRespBigW : AnomalyResponse :=
  ⟨.Other, 0, ⟨false, some (constsW.MAX_POSITION_ABS + 1), false, false⟩⟩

/-- `agentW` reporting `anomalyRespW`. -/
def agentAnomW : OpenClawAgent :=
  { agentW with detect_anomalies := fun _ => .ok anomalyRespW }

/-- `agentW` reporting `anomalyRespBigW`. -/
def agentAnomBigW : OpenClawAgent :=
  { agentW with detect_anomalies := fun _ => .ok anomalyRespBigW }

/-- A context with zero total capital (Scenario 4). -/
def ctxZeroCapW : AgentContext :=
  { current_slot := 1000
    oracle_price := 1000000
    vault := 10000000
    insurance_balance := 1000000
    total_capital := 0
    total_positive_pnl := 0
    total_open_interest := 0
    risk_params := paramsW
    risk_reduction_mode := false
    last_crank_slot := 999 }

/-- Both safety flags of `t` dominate those of `s`: a flag set in `s` is
still set in `t`. -/
def flags_mono (s t : ClawcolatorEngine) : Prop :=
  (s.shutdown = true → t.shutdown = true) ∧
    (s.market_frozen = true → t.market_frozen = true)

/-! ## Helper lemmas -/

lemma satAbs_of_ne_min (v : Int) (h : v ≠ -(2 ^ 127)) :
    saturating_abs_i128 v = (v.natAbs : Int) := by
  unfold saturating_abs_i128
  rw [if_neg h]

lemma sign_of_pos (x : Int) (h : 0 < x) : x.sign = 1 :=
  Int.sign_eq_one_iff_pos.mpr h

lemma sign_of_neg (x : Int) (h : x < 0) : x.sign = -1 :=
  Int.sign_eq_neg_one_iff_neg.mpr h

/-! ## Claims -/

/-- C1: every Accept decision passing `validate_trade_execution` with a
nonzero execution size has the requested size's sign and at most its
magnitude; a zero execution size is accepted (given an in-bounds price)
regardless of the requested size; an execution size of `i128::MIN` is never
accepted. -/
theorem claim1_accepted_size_sign_and_bound (c : Consts) (s : ClawcolatorEngine) :
    (∀ price exec_size requested_size,
        s.validate_trade_execution c price exec_size requested_size = .ok () →
        exec_size ≠ 0 →
        exec_size.sign = requested_size.sign ∧
          exec_size.natAbs ≤ requested_size.natAbs)
    ∧ (∀ price requested_size, price ≠ 0 → price ≤ c.MAX_ORACLE_PRICE →
        s.validate_trade_execution c price 0 requested_size = .ok ())
    ∧ (∀ price requested_size,
        s.validate_trade_execution c price (-(2 ^ 127)) requested_size ≠ .ok ()) := by
  refine ⟨?_, ?_, ?_⟩
  · intro price exec_size requested_size h hne
    unfold ClawcolatorEngine.validate_trade_execution at h
    split_ifs at h with h1 h2 h3 h4 h5 h6
    clear h
    have hiff : (0 < exec_size) ↔ (0 < requested_size) :=
      decide_eq_decide.mp (not_ne_iff.mp h4)
    have habs : exec_size.natAbs ≤ requested_size.natAbs := by
      rw [satAbs_of_ne_min exec_size h2] at h5
      by_cases hm : requested_size = -(2 ^ 127)
      · rw [hm] at h5
        simp only [saturating_abs_i128, if_pos rfl] at h5
        omega
      · rw [satAbs_of_ne_min requested_size hm] at h5
        omega
    refine ⟨?_, habs⟩
    rcases lt_trichotomy exec_size 0 with hx | hx | hx
    · have hreq : requested_size < 0 := by
        have : ¬ 0 < requested_size := fun hr => absurd (hiff.mpr hr) (by omega)
        omega
      rw [sign_of_neg exec_size hx, sign_of_neg requested_size hreq]
    · exact absurd hx hne
    · rw [sign_of_pos exec_size hx, sign_of_pos requested_size (hiff.mp hx)]
  · intro price requested_size hp hle
    have hcond : ¬ (price = 0 ∨ c.MAX_ORACLE_PRICE < price) := by
      push_neg
      exact ⟨hp, hle⟩
    simp [ClawcolatorEngine.validate_trade_execution, hcond]
  · intro price requested_size h
    unfold ClawcolatorEngine.validate_trade_execution at h
    split_ifs at h with h1 h2 h3 h4 h5 h6 h7
    · omega
    · exact absurd rfl h3

/-- C2: every Accept decision passing `validate_trade_execution` has a
strictly positive execution price bounded by `MAX_ORACLE_PRICE`, and the
magnitude of its execution size is bounded by the currently configured
`MarketParams.max_position_size`. -/
theorem claim2_accepted_price_and_position_bounds (c : Consts)
    (s : ClawcolatorEngine) (price : Nat) (exec_size requested_size : Int)
    (h : s.validate_trade_execution c price exec_size requested_size = .ok ()) :
    0 < price ∧ price ≤ c.MAX_ORACLE_PRICE ∧
      exec_size.natAbs ≤ s.market_params.max_position_size := by
  unfold ClawcolatorEngine.validate_trade_execution at h
  split_ifs at h with h1 h2 h3 h4 h5 h6 h7
  · push_neg at h1
    refine ⟨by omega, h1.2, ?_⟩
    simp [h2]
  · push_neg at h1
    rw [satAbs_of_ne_min exec_size h3] at h7
    exact ⟨by omega, h1.2, by omega⟩

/-- Witness for C1: conclusions of all three parts at concrete inputs. -/
theorem claim1_accepted_size_sign_and_bound_witness :
    (Int.sign 500 = Int.sign 800 ∧ (500 : Int).natAbs ≤ (800 : Int).natAbs)
    ∧ ClawcolatorEngine.validate_trade_execution constsW stateW 100 0 (-7) = .ok ()
    ∧ ClawcolatorEngine.validate_trade_execution constsW stateW 100 (-(2 ^ 127)) 5 ≠ .ok () := by
  obtain ⟨hA, hB, hC⟩ := claim1_accepted_size_sign_and_bound constsW stateW
  refine ⟨hA 100 500 800 rfl (by norm_num), hB 100 (-7) (by norm_num) (by norm_num [constsW]),
    hC 100 5⟩

/-- Witness for C2: conclusions at a concrete accepted execution. -/
theorem claim2_accepted_price_and_position_bounds_witness :
    0 < 100 ∧ 100 ≤ constsW.MAX_ORACLE_PRICE ∧
      (500 : Int).natAbs ≤ stateW.market_params.max_position_size :=
  claim2_accepted_price_and_position_bounds constsW stateW 100 500 800 rfl

/-- C3 counterexample: `init_in_place` is a core operation of
`ClawcolatorEngine` and it clears a previously set shutdown flag, so the
flags are not monotonic across every core operation. -/
theorem claim3_counterexample :
    stateShutW.shutdown = true ∧
      (ClawcolatorEngine.init_in_place constsW innerInitW stateShutW paramsW).shutdown = false :=
  ⟨rfl, rfl⟩

/-- C3 (amended): the safety flags are monotonic across every core operation
except `init_in_place` (which re-initialises the whole engine): for
`execute_trade`, `update_market_params`, `check_anomalies` and
`check_shutdown`, with any agent and any behaviour of the external ledger
engine, a flag that is true before the call is still true after it. -/
theorem claim3_amended_flags_monotonic (c : Consts) (ie : InnerExec)
    (s : ClawcolatorEngine) (agent : OpenClawAgent)
    (u o n o2 o3 : Nat) (sz : Int) :
    flags_mono s (ClawcolatorEngine.execute_trade c ie s agent u o sz n).2
    ∧ flags_mono s (ClawcolatorEngine.update_market_params c s agent).2
    ∧ flags_mono s (ClawcolatorEngine.check_anomalies c s agent o2).2
    ∧ flags_mono s (ClawcolatorEngine.check_shutdown s agent o3).2 := by
  refine ⟨?_, ?_, ?_, ?_⟩
  · unfold ClawcolatorEngine.execute_trade
    by_cases hs : s.shutdown
    · simp [hs, flags_mono]
    · by_cases hf : s.market_frozen
      · simp [hs, hf, flags_mono]
      · cases hd : agent.decide_trade (s.build_context o)
            { user_idx := u, size := sz, requested_price := none } with
        | error e => simp [hs, hf, hd, flags_mono]
        | ok d =>
          cases d with
          | Accept price exec_size =>
            cases hv : ClawcolatorEngine.validate_trade_execution c s price exec_size sz with
            | error e => simp [hs, hf, hd, hv, flags_mono]
            | ok uu => simp [hs, hf, hd, hv, flags_mono]
          | Reject r => simp [hs, hf, hd, flags_mono]
          | RequestQuote q m => simp [hs, hf, hd, flags_mono]
  · unfold ClawcolatorEngine.update_market_params
    cases hg : agent.get_market_params (s.build_context 0) with
    | error e => simp [hg, flags_mono]
    | ok p =>
      cases hv : s.validate_market_params c p with
      | error e => simp [hg, hv, flags_mono]
      | ok uu => simp [hg, hv, flags_mono]
  · unfold ClawcolatorEngine.check_anomalies
    cases hr : agent.detect_anomalies (s.build_context o2) with
    | error e => simp [hr, flags_mono]
    | ok resp =>
      cases hrl : resp.actions.reduce_limits <;>
        simp only [hrl, hr, flags_mono] <;>
        constructor <;> intro h <;> split_ifs <;> simp_all
  · unfold ClawcolatorEngine.check_shutdown
    cases hb : agent.should_shutdown (s.build_context o3) with
    | error e => simp [hb, flags_mono]
    | ok b =>
      cases b <;> simp [hb, flags_mono]

/-- Witness for amended C3: on a state with the shutdown flag set, all four
operations leave it set. -/
theorem claim3_amended_flags_monotonic_witness :
    (ClawcolatorEngine.execute_trade constsW innerExecW stateShutW agentW 0 10 5 1).2.shutdown = true
    ∧ (ClawcolatorEngine.update_market_params constsW stateShutW agentW).2.shutdown = true
    ∧ (ClawcolatorEngine.check_anomalies constsW stateShutW agentW 10).2.shutdown = true
    ∧ (ClawcolatorEngine.check_shutdown stateShutW agentW 10).2.shutdown = true := by
  have h := claim3_amended_flags_monotonic constsW innerExecW stateShutW agentW 0 10 1 10 10 5
  exact ⟨h.1.1 rfl, h.2.1.1 rfl, h.2.2.1.1 rfl, h.2.2.2.1 rfl⟩

/-- C4: with the shutdown or frozen flag set, `execute_trade` returns
`Unauthorized` and leaves the state untouched; since the result is this same
value for every agent and every inner-engine behaviour, the agent's
`decide_trade` is never consulted. -/
theorem claim4_flag_gate_rejects_before_policy (c : Consts) (ie : InnerExec)
    (s : ClawcolatorEngine) (agent : OpenClawAgent) (u o n : Nat) (sz : Int)
    (h : s.shutdown = true ∨ s.market_frozen = true) :
    ClawcolatorEngine.execute_trade c ie s agent u o sz n = (.error .Unauthorized, s) := by
  unfold ClawcolatorEngine.execute_trade
  rcases h with h | h
  · simp [h]
  · by_cases hs : s.shutdown <;> simp [hs, h]

/-- Witness for C4 at a concrete shut-down state. -/
theorem claim4_flag_gate_rejects_before_policy_witness :
    (stateShutW.shutdown = true ∨ stateShutW.market_frozen = true)
    ∧ ClawcolatorEngine.execute_trade constsW innerExecW stateShutW agentW 0 1000000 1000 1001
        = (.error .Unauthorized, stateShutW) :=
  ⟨Or.inl rfl,
    claim4_flag_gate_rejects_before_policy constsW innerExecW stateShutW agentW
      0 1000000 1001 1000 (Or.inl rfl)⟩

/-- C5: `update_market_params` is atomic and total — any failure leaves the
whole state (in particular all six fields of `market_params`) unchanged, an
over-limit `max_leverage_bps` yields the overflow error, and a validated
proposal replaces `market_params` wholesale. -/
theorem claim5_update_market_params_atomic (c : Consts) (s : ClawcolatorEngine)
    (agent : OpenClawAgent) :
    (∀ e, (ClawcolatorEngine.update_market_params c s agent).1 = .error e →
        (ClawcolatorEngine.update_market_params c s agent).2 = s)
    ∧ (∀ p, agent.get_market_params (s.build_context 0) = .ok p →
        10000 < p.max_leverage_bps →
        ClawcolatorEngine.update_market_params c s agent = (.error .Overflow, s))
    ∧ (∀ p, agent.get_market_params (s.build_context 0) = .ok p →
        s.validate_market_params c p = .ok () →
        ClawcolatorEngine.update_market_params c s agent
          = (.ok (), { s with market_params := p })) := by
  refine ⟨?_, ?_, ?_⟩
  · intro e he
    unfold ClawcolatorEngine.update_market_params at he ⊢
    cases hg : agent.get_market_params (s.build_context 0) with
    | error e2 => simp [hg]
    | ok p =>
      simp only [hg] at he ⊢
      cases hv : s.validate_market_params c p with
      | error e2 => simp [hv]
      | ok u => simp [hv] at he
  · intro p hg hlev
    unfold ClawcolatorEngine.update_market_params
    have hv : s.validate_market_params c p = .error .Overflow := by
      unfold ClawcolatorEngine.validate_market_params
      rw [if_pos hlev]
    simp only [hg, hv]
  · intro p hg hv
    unfold ClawcolatorEngine.update_market_params
    simp only [hg, hv]

/-- Witness for C5: Scenario 5's over-limit proposal is refused with the
state unchanged, and a valid proposal replaces the parameters wholesale. -/
theorem claim5_update_market_params_atomic_witness :
    ClawcolatorEngine.update_market_params constsW stateW agentBadParamsW
      = (.error .Overflow, stateW)
    ∧ ClawcolatorEngine.update_market_params constsW stateSmallMaxW agentW
      = (.ok (), { stateSmallMaxW with market_params := MarketParams.default constsW }) :=
  ⟨(claim5_update_market_params_atomic constsW stateW agentBadParamsW).2.1
      badParamsW rfl (by norm_num [badParamsW, MarketParams.default]),
    (claim5_update_market_params_atomic constsW stateSmallMaxW agentW).2.2
      (MarketParams.default constsW) rfl (by rfl)⟩

/-- C6 counterexample: a policy failure is NOT surfaced identically to a
policy Reject — an agent failing with `Overflow` makes `execute_trade` return
`Overflow`, while a Reject yields `Unauthorized`, so a caller can tell them
apart. -/
theorem claim6_counterexample :
    ClawcolatorEngine.execute_trade constsW innerExecW stateW agentErrW 0 1000000 1000 1001
      ≠ ClawcolatorEngine.execute_trade constsW innerExecW stateW agentW 0 1000000 1000 1001 := by
  intro h
  have h1 : ClawcolatorEngine.execute_trade constsW innerExecW stateW agentErrW 0 1000000 1000 1001
      = (.error .Overflow, stateW) := rfl
  have h2 : ClawcolatorEngine.execute_trade constsW innerExecW stateW agentW 0 1000000 1000 1001
      = (.error .Unauthorized, stateW) := rfl
  rw [h1, h2] at h
  simp at h

/-- C6 (amended): a failure `Err e` from the agent's `decide_trade` is
propagated by `execute_trade` as `Err e`, and a policy Reject is surfaced as
`Err Unauthorized`; in both cases no engine state is mutated. The two
outcomes coincide exactly when the policy's own error is `Unauthorized`. -/
theorem claim6_amended_policy_failure_propagation (c : Consts) (ie : InnerExec)
    (s : ClawcolatorEngine) (agent : OpenClawAgent) (u o n : Nat) (sz : Int)
    (hs : s.shutdown = false) (hf : s.market_frozen = false) :
    (∀ e, agent.decide_trade (s.build_context o)
        { user_idx := u, size := sz, requested_price := none } = .error e →
      ClawcolatorEngine.execute_trade c ie s agent u o sz n = (.error e, s))
    ∧ (∀ r, agent.decide_trade (s.build_context o)
        { user_idx := u, size := sz, requested_price := none } = .ok (.Reject r) →
      ClawcolatorEngine.execute_trade c ie s agent u o sz n
        = (.error .Unauthorized, s)) := by
  constructor
  · intro e he
    unfold ClawcolatorEngine.execute_trade
    simp only [hs, hf, Bool.false_eq_true, if_false, he]
  · intro r hr
    unfold ClawcolatorEngine.execute_trade
    simp only [hs, hf, Bool.false_eq_true, if_false, hr]

/-- Witness for amended C6 at concrete failing and rejecting agents. -/
theorem claim6_amended_policy_failure_propagation_witness :
    ClawcolatorEngine.execute_trade constsW innerExecW stateW agentErrW 0 1000000 1000 1001
      = (.error .Overflow, stateW)
    ∧ ClawcolatorEngine.execute_trade constsW innerExecW stateW agentW 0 1000000 1000 1001
      = (.error .Unauthorized, stateW) :=
  ⟨(claim6_amended_policy_failure_propagation constsW innerExecW stateW agentErrW
      0 1000000 1001 1000 rfl rfl).1 .Overflow rfl,
    (claim6_amended_policy_failure_propagation constsW innerExecW stateW agentW
      0 1000000 1001 1000 rfl rfl).2 .Other rfl⟩

/-- C7: for a context with zero total capital, the sample policy's
`decide_trade` short-circuits before the leverage division and rejects with
`InsufficientLiquidity`, provided the earlier risk-reduction-mode and
position-size checks pass. -/
theorem claim7_zero_capital_short_circuit (a : SimpleClawAgent) (c : Consts)
    (ctx : AgentContext) (req : TradeRequest)
    (h0 : ctx.total_capital = 0) (hrr : ctx.risk_reduction_mode = false)
    (hsz : req.size.natAbs ≤ a.max_position_size) :
    a.decide_trade c ctx req = .ok (.Reject .InsufficientLiquidity) := by
  unfold SimpleClawAgent.decide_trade
  simp [hrr, h0, not_lt.mpr hsz]

/-- Witness for C7: Scenario 4 at a concrete zero-capital context. -/
theorem claim7_zero_capital_short_circuit_witness :
    SimpleClawAgent.decide_trade ⟨1000000, 1000, 10⟩ constsW ctxZeroCapW
        { user_idx := 0, size := 1000, requested_price := none }
      = .ok (.Reject .InsufficientLiquidity) :=
  claim7_zero_capital_short_circuit ⟨1000000, 1000, 10⟩ constsW ctxZeroCapW
    { user_idx := 0, size := 1000, requested_price := none }
    rfl rfl (by norm_num)

/-- C8: `init_in_place` resets the shutdown and frozen flags to false and the
market parameters to their default, for every prior state — in particular it
clears previously set safety flags. -/
theorem claim8_init_in_place_resets (c : Consts) (ii : InnerInit)
    (s : ClawcolatorEngine) (p : RiskParams) :
    (ClawcolatorEngine.init_in_place c ii s p).shutdown = false
    ∧ (ClawcolatorEngine.init_in_place c ii s p).market_frozen = false
    ∧ (ClawcolatorEngine.init_in_place c ii s p).market_params
        = MarketParams.default c :=
  ⟨rfl, rfl, rfl⟩

/-- C9: `check_anomalies` applies any `reduce_limits` value within the
protocol maximum as the new `max_position_size` — the "reduce" direction is
not enforced, so values larger than the current limit are applied too — and
silently ignores values above the protocol maximum, returning success either
way. -/
theorem claim9_reduce_limits_applied (c : Consts) (s : ClawcolatorEngine)
    (agent : OpenClawAgent) (o : Nat) (resp : AnomalyResponse) (v : Nat)
    (h : agent.detect_anomalies (s.build_context o) = .ok resp)
    (hv : resp.actions.reduce_limits = some v) :
    (ClawcolatorEngine.check_anomalies c s agent o).1 = .ok ()
    ∧ (v ≤ c.MAX_POSITION_ABS →
        (ClawcolatorEngine.check_anomalies c s agent o).2.market_params.max_position_size = v)
    ∧ (c.MAX_POSITION_ABS < v →
        (ClawcolatorEngine.check_anomalies c s agent o).2.market_params.max_position_size
          = s.market_params.max_position_size) := by
  unfold ClawcolatorEngine.check_anomalies
  simp only [h, hv]
  refine ⟨?_, ?_, ?_⟩
  · trivial
  · intro hle
    split_ifs <;> simp_all
  · intro hgt
    have : ¬ v ≤ c.MAX_POSITION_ABS := not_le.mpr hgt
    split_ifs <;> simp_all

/-- Witness for C9: a `reduce_limits` of 500 replaces a current limit of 10
(an increase), and an over-limit value leaves the limit unchanged. -/
theorem claim9_reduce_limits_applied_witness :
    (ClawcolatorEngine.check_anomalies constsW stateSmallMaxW agentAnomW 7).1 = .ok ()
    ∧ (ClawcolatorEngine.check_anomalies constsW stateSmallMaxW agentAnomW 7).2.market_params.max_position_size = 500
    ∧ (ClawcolatorEngine.check_anomalies constsW stateSmallMaxW agentAnomBigW 7).2.market_params.max_position_size = 10 := by
  obtain ⟨hA, hB, _⟩ :=
    claim9_reduce_limits_applied constsW stateSmallMaxW agentAnomW 7 anomalyRespW 500 rfl rfl
  obtain ⟨_, _, hC⟩ :=
    claim9_reduce_limits_applied constsW stateSmallMaxW agentAnomBigW 7 anomalyRespBigW
      (constsW.MAX_POSITION_ABS + 1) rfl rfl
  exact ⟨hA, hB (by norm_num [constsW]), hC (by norm_num [constsW])⟩

/-- C10: `update_market_params` consults the agent at a context whose
`oracle_price` is 0 while every other field reflects the current engine
state (`risk_reduction_mode` is the hard-coded false of `build_context`);
the call's outcome depends on the agent only through its answer at that
context. -/
theorem claim10_params_context_zero_price (c : Consts) (s : ClawcolatorEngine) :
    ((s.build_context 0).oracle_price = 0
      ∧ (s.build_context 0).current_slot = s.engine.current_slot
      ∧ (s.build_context 0).vault = s.engine.vault
      ∧ (s.build_context 0).insurance_balance = s.engine.insurance_balance
      ∧ (s.build_context 0).total_capital = s.engine.c_tot
      ∧ (s.build_context 0).total_positive_pnl = s.engine.pnl_pos_tot
      ∧ (s.build_context 0).total_open_interest = s.engine.total_open_interest
      ∧ (s.build_context 0).risk_params = s.engine.params
      ∧ (s.build_context 0).risk_reduction_mode = false
      ∧ (s.build_context 0).last_crank_slot = s.engine.last_crank_slot)
    ∧ (∀ a1 a2 : OpenClawAgent,
        a1.get_market_params (s.build_context 0) = a2.get_market_params (s.build_context 0) →
        ClawcolatorEngine.update_market_params c s a1
          = ClawcolatorEngine.update_market_params c s a2) := by
  refine ⟨⟨rfl, rfl, rfl, rfl, rfl, rfl, rfl, rfl, rfl, rfl⟩, ?_⟩
  intro a1 a2 hag
  unfold ClawcolatorEngine.update_market_params
  simp only [hag]

/-- Witness for C10: two agents differing everywhere except in
`get_market_params` produce identical `update_market_params` outcomes. -/
theorem claim10_params_context_zero_price_witness :
    (stateW.build_context 0).oracle_price = 0
    ∧ ClawcolatorEngine.update_market_params constsW stateW agentW
        = ClawcolatorEngine.update_market_params constsW stateW agentErrW :=
  ⟨(claim10_params_context_zero_price constsW stateW).1.1,
    (claim10_params_context_zero_price constsW stateW).2 agentW agentErrW rfl⟩

end Clawcolator
